import Mathlib

/-!
Verification of the header-decoration policy of `src/games/Server.py`
(`BrotliGzipHTTPRequestHandler.end_headers`).

The handler overrides `end_headers`: it inspects `self.path` with exact,
case-sensitive `str.endswith` tests, conditionally queues `Content-Encoding`
and `Content-Type` headers via `send_header`, and finally calls
`super().end_headers()`.  We embed that method as a pure function from the
request path to the trace of actions it performs.
-/

namespace Server

/-- An observable action performed while finalizing a response's headers:
queueing one header (`send_header name value`), delegating to the parent
class's `end_headers` (`superEndHeaders`), or — in the error path modelled
from the spec — setting the response status line. -/
inductive Action where
  | sendHeader (name value : String)
  | superEndHeaders
  | sendStatus (code : Nat)
deriving DecidableEq, Repr

/-- Python's `str.endswith(s)`: an exact, case-sensitive suffix test on the
characters of the string. -/
def endswith (p s : String) : Bool :=
  s.data.isSuffixOf p.data

/-- The body of `BrotliGzipHTTPRequestHandler.end_headers` (Server.py lines
7–32), as the trace of actions it performs for a given `self.path`. -/
def end_headers (path : String) : List Action :=
  (if endswith path ".br" then
    Action.sendHeader "Content-Encoding" "br" ::
    (if endswith path ".js.br" then
      [Action.sendHeader "Content-Type" "application/javascript"]
    else if endswith path ".wasm.br" then
      [Action.sendHeader "Content-Type" "application/wasm"]
    else if endswith path ".data.br" then
      [Action.sendHeader "Content-Type" "application/octet-stream"]
    else if endswith path ".json.br" then
      [Action.sendHeader "Content-Type" "application/json"]
    else [])
  else if endswith path ".gz" then
    Action.sendHeader "Content-Encoding" "gzip" ::
    (if endswith path ".js.gz" then
      [Action.sendHeader "Content-Type" "application/javascript"]
    else if endswith path ".wasm.gz" then
      [Action.sendHeader "Content-Type" "application/wasm"]
    else if endswith path ".data.gz" then
      [Action.sendHeader "Content-Type" "application/octet-stream"]
    else if endswith path ".json.gz" then
      [Action.sendHeader "Content-Type" "application/json"]
    else [])
  else []) ++ [Action.superEndHeaders]

/-- The headers this component inserts for a given request path: the
`send_header` calls of `end_headers`, in order. -/
def headerDecision (path : String) : List (String × String) :=
  (end_headers path).filterMap fun a =>
    match a with
    | Action.sendHeader n v => some (n, v)
    | _ => none

/-- The server handles each request independently: a fresh handler instance
runs `end_headers` per request, so a sequence of requests yields the
per-request header decisions. -/
def handleRequests (reqs : List String) : List (List (String × String)) :=
  reqs.map headerDecision

/-- Modelled from the spec: the underlying file-serving component owns 404
handling, and this component "is invoked as a hook immediately before
headers are sent" on every response.  So an error response sets its status
code and then finalizes headers through the overridden `end_headers`.
(The stdlib code performing this is not under `src/`.) -/
def finalizeErrorResponse (code : Nat) (path : String) : List Action :=
  Action.sendStatus code :: end_headers path

/-- Recognizer for the header-insertion action. -/
def Action.isSendHeader : Action → Bool
  | Action.sendHeader _ _ => true
  | _ => false

/-- A string ending in `s` also ends in every suffix `t` of `s`. -/
theorem endswith_mono (p : String) {s t : String} (hts : t.data <:+ s.data)
    (h : endswith p s = true) : endswith p t = true := by
  simp only [endswith, List.isSuffixOf_iff_suffix] at h ⊢
  exact hts.trans h

/-- Two suffix patterns, neither a suffix of the other, cannot both match. -/
theorem endswith_disjoint (p : String) {s t : String}
    (hst : ¬ s.data <:+ t.data) (hts : ¬ t.data <:+ s.data)
    (h : endswith p s = true) : endswith p t = false := by
  have hp : s.data <:+ p.data := List.isSuffixOf_iff_suffix.mp h
  rw [endswith, Bool.eq_false_iff]
  intro ht
  have htp : t.data <:+ p.data := List.isSuffixOf_iff_suffix.mp ht
  rcases List.suffix_or_suffix_of_suffix hp htp with h1 | h1
  · exact hst h1
  · exact hts h1

/-- C1: every path ending in `.br` gets `Content-Encoding: br`; every path
ending in `.gz` gets `Content-Encoding: gzip` (such a path never ends in
`.br`); the suffix test is exact and case-sensitive, so `.BR` and `.GZ`
match neither branch. -/
theorem headerDecision_contentEncoding (p : String) :
    (endswith p ".br" = true →
      ("Content-Encoding", "br") ∈ headerDecision p) ∧
    (endswith p ".gz" = true →
      ("Content-Encoding", "gzip") ∈ headerDecision p) ∧
    headerDecision "/app.BR" = [] ∧ headerDecision "/app.GZ" = [] := by
  refine ⟨?_, ?_, by decide, by decide⟩
  · intro h
    refine List.mem_filterMap.mpr ⟨Action.sendHeader "Content-Encoding" "br", ?_, rfl⟩
    simp [end_headers, h]
  · intro h
    have hbr : endswith p ".br" = false :=
      endswith_disjoint p (by decide) (by decide) h
    refine List.mem_filterMap.mpr ⟨Action.sendHeader "Content-Encoding" "gzip", ?_, rfl⟩
    simp [end_headers, h, hbr]

/-- C1 witness: concrete paths exercising both hypotheses. -/
theorem headerDecision_contentEncoding_witness :
    ("Content-Encoding", "br") ∈ headerDecision "/app.js.br" ∧
    ("Content-Encoding", "gzip") ∈ headerDecision "/lib.gz" :=
  ⟨(headerDecision_contentEncoding "/app.js.br").1 (by decide),
   (headerDecision_contentEncoding "/lib.gz").2.1 (by decide)⟩

/-- C4: a path ending in neither `.br` nor `.gz` receives no headers from
this component. -/
theorem headerDecision_noMatch (p : String)
    (hbr : endswith p ".br" = false) (hgz : endswith p ".gz" = false) :
    headerDecision p = [] := by
  simp [headerDecision, end_headers, hbr, hgz]

/-- C4 witness: `/index.html` and `/data.bin` receive no headers. -/
theorem headerDecision_noMatch_witness :
    headerDecision "/index.html" = [] ∧ headerDecision "/data.bin" = [] :=
  ⟨headerDecision_noMatch "/index.html" (by decide) (by decide),
   headerDecision_noMatch "/data.bin" (by decide) (by decide)⟩

/-- C5: the `.br` and `.gz` branches are mutually exclusive: at most one
`Content-Encoding` header is ever emitted; `.br.gz` gets only `gzip` and
`.gz.br` only `br`. -/
theorem headerDecision_atMostOneEncoding (p : String) :
    (headerDecision p).countP (fun x => x.1 == "Content-Encoding") ≤ 1 ∧
    headerDecision "/x.br.gz" = [("Content-Encoding", "gzip")] ∧
    headerDecision "/x.gz.br" = [("Content-Encoding", "br")] := by
  refine ⟨?_, by decide, by decide⟩
  unfold headerDecision end_headers
  repeat' split
  all_goals simp

/-- C9: the suffix tests run on the raw request target, so a query string
defeats them: `/app.js.br?v=1` ends in neither `.br` nor `.gz` and gets no
headers. -/
theorem headerDecision_queryString :
    endswith "/app.js.br?v=1" ".br" = false ∧
    endswith "/app.js.br?v=1" ".gz" = false ∧
    headerDecision "/app.js.br?v=1" = [] := by decide

/-- C2: the four sub-suffix dispatches of each branch emit exactly the
matching `Content-Type`: `application/javascript` for `.js.*`,
`application/wasm` for `.wasm.*`, `application/octet-stream` for `.data.*`,
`application/json` for `.json.*`. -/
theorem headerDecision_contentType (p : String) :
    (endswith p ".js.br" = true → headerDecision p =
      [("Content-Encoding", "br"), ("Content-Type", "application/javascript")]) ∧
    (endswith p ".wasm.br" = true → headerDecision p =
      [("Content-Encoding", "br"), ("Content-Type", "application/wasm")]) ∧
    (endswith p ".data.br" = true → headerDecision p =
      [("Content-Encoding", "br"), ("Content-Type", "application/octet-stream")]) ∧
    (endswith p ".json.br" = true → headerDecision p =
      [("Content-Encoding", "br"), ("Content-Type", "application/json")]) ∧
    (endswith p ".js.gz" = true → headerDecision p =
      [("Content-Encoding", "gzip"), ("Content-Type", "application/javascript")]) ∧
    (endswith p ".wasm.gz" = true → headerDecision p =
      [("Content-Encoding", "gzip"), ("Content-Type", "application/wasm")]) ∧
    (endswith p ".data.gz" = true → headerDecision p =
      [("Content-Encoding", "gzip"), ("Content-Type", "application/octet-stream")]) ∧
    (endswith p ".json.gz" = true → headerDecision p =
      [("Content-Encoding", "gzip"), ("Content-Type", "application/json")]) := by
  refine ⟨?_, ?_, ?_, ?_, ?_, ?_, ?_, ?_⟩ <;> intro h
  · have hbr : endswith p ".br" = true := endswith_mono p (by decide) h
    simp [headerDecision, end_headers, hbr, h]
  · have hbr : endswith p ".br" = true := endswith_mono p (by decide) h
    have hjs : endswith p ".js.br" = false := endswith_disjoint p (by decide) (by decide) h
    simp [headerDecision, end_headers, hbr, hjs, h]
  · have hbr : endswith p ".br" = true := endswith_mono p (by decide) h
    have hjs : endswith p ".js.br" = false :=
      endswith_disjoint p (by decide) (by decide) h
    have hwasm : endswith p ".wasm.br" = false :=
      endswith_disjoint p (by decide) (by decide) h
    simp [headerDecision, end_headers, hbr, hjs, hwasm, h]
  · have hbr : endswith p ".br" = true := endswith_mono p (by decide) h
    have hjs : endswith p ".js.br" = false :=
      endswith_disjoint p (by decide) (by decide) h
    have hwasm : endswith p ".wasm.br" = false :=
      endswith_disjoint p (by decide) (by decide) h
    have hdata : endswith p ".data.br" = false :=
      endswith_disjoint p (by decide) (by decide) h
    simp [headerDecision, end_headers, hbr, hjs, hwasm, hdata, h]
  · have hgz : endswith p ".gz" = true := endswith_mono p (by decide) h
    have hbr : endswith p ".br" = false :=
      endswith_disjoint p (by decide) (by decide) h
    simp [headerDecision, end_headers, hbr, hgz, h]
  · have hgz : endswith p ".gz" = true := endswith_mono p (by decide) h
    have hbr : endswith p ".br" = false :=
      endswith_disjoint p (by decide) (by decide) h
    have hjs : endswith p ".js.gz" = false :=
      endswith_disjoint p (by decide) (by decide) h
    simp [headerDecision, end_headers, hbr, hgz, hjs, h]
  · have hgz : endswith p ".gz" = true := endswith_mono p (by decide) h
    have hbr : endswith p ".br" = false :=
      endswith_disjoint p (by decide) (by decide) h
    have hjs : endswith p ".js.gz" = false :=
      endswith_disjoint p (by decide) (by decide) h
    have hwasm : endswith p ".wasm.gz" = false :=
      endswith_disjoint p (by decide) (by decide) h
    simp [headerDecision, end_headers, hbr, hgz, hjs, hwasm, h]
  · have hgz : endswith p ".gz" = true := endswith_mono p (by decide) h
    have hbr : endswith p ".br" = false :=
      endswith_disjoint p (by decide) (by decide) h
    have hjs : endswith p ".js.gz" = false :=
      endswith_disjoint p (by decide) (by decide) h
    have hwasm : endswith p ".wasm.gz" = false :=
      endswith_disjoint p (by decide) (by decide) h
    have hdata : endswith p ".data.gz" = false :=
      endswith_disjoint p (by decide) (by decide) h
    simp [headerDecision, end_headers, hbr, hgz, hjs, hwasm, hdata, h]

/-- C2 witness: one concrete path per representative sub-suffix. -/
theorem headerDecision_contentType_witness :
    headerDecision "/app.js.br" =
      [("Content-Encoding", "br"), ("Content-Type", "application/javascript")] ∧
    headerDecision "/m.wasm.gz" =
      [("Content-Encoding", "gzip"), ("Content-Type", "application/wasm")] ∧
    headerDecision "/payload.data.br" =
      [("Content-Encoding", "br"), ("Content-Type", "application/octet-stream")] ∧
    headerDecision "/cfg.json.gz" =
      [("Content-Encoding", "gzip"), ("Content-Type", "application/json")] :=
  ⟨(headerDecision_contentType "/app.js.br").1 (by decide),
   (headerDecision_contentType "/m.wasm.gz").2.2.2.2.2.1 (by decide),
   (headerDecision_contentType "/payload.data.br").2.2.1 (by decide),
   (headerDecision_contentType "/cfg.json.gz").2.2.2.2.2.2.2 (by decide)⟩

/-- C3: a path ending in `.br` (resp. `.gz`) that matches none of the four
sub-suffixes gets `Content-Encoding` alone, with no `Content-Type`. -/
theorem headerDecision_encodingOnly (p : String) :
    (endswith p ".br" = true → endswith p ".js.br" = false →
     endswith p ".wasm.br" = false → endswith p ".data.br" = false →
     endswith p ".json.br" = false →
       headerDecision p = [("Content-Encoding", "br")]) ∧
    (endswith p ".gz" = true → endswith p ".js.gz" = false →
     endswith p ".wasm.gz" = false → endswith p ".data.gz" = false →
     endswith p ".json.gz" = false →
       headerDecision p = [("Content-Encoding", "gzip")]) := by
  constructor
  · intro hbr hjs hwasm hdata hjson
    simp [headerDecision, end_headers, hbr, hjs, hwasm, hdata, hjson]
  · intro hgz hjs hwasm hdata hjson
    have hbr : endswith p ".br" = false :=
      endswith_disjoint p (by decide) (by decide) hgz
    simp [headerDecision, end_headers, hbr, hgz, hjs, hwasm, hdata, hjson]

/-- C3 witness: `.css.br` and `.css.gz` paths get only the encoding header. -/
theorem headerDecision_encodingOnly_witness :
    headerDecision "/style.css.br" = [("Content-Encoding", "br")] ∧
    headerDecision "/style.css.gz" = [("Content-Encoding", "gzip")] :=
  ⟨(headerDecision_encodingOnly "/style.css.br").1 (by decide) (by decide)
     (by decide) (by decide) (by decide),
   (headerDecision_encodingOnly "/style.css.gz").2 (by decide) (by decide)
     (by decide) (by decide) (by decide)⟩

/-- C6: on every path through `end_headers` the parent finalization runs
exactly once, as the last action; every other action is a header insertion,
so neither the status code nor the body nor any queued header is altered. -/
theorem end_headers_delegates (p : String) :
    (end_headers p).count Action.superEndHeaders = 1 ∧
    (end_headers p).getLast? = some Action.superEndHeaders ∧
    ∀ a ∈ (end_headers p).dropLast, Action.isSendHeader a = true := by
  unfold end_headers
  repeat' split
  all_goals decide

/-- C7: the decision is total: it completes (reaching delegation) on every
path string, including the empty string and strings shorter than any
suffix, and introduces no error outcome. -/
theorem end_headers_total (p : String) :
    (end_headers p).getLast? = some Action.superEndHeaders ∧
    end_headers "" = [Action.superEndHeaders] ∧
    end_headers "." = [Action.superEndHeaders] ∧
    end_headers ".b" = [Action.superEndHeaders] := by
  refine ⟨?_, by decide, by decide, by decide⟩
  unfold end_headers
  repeat' split
  all_goals decide

/-- C8: the decision is a deterministic, stateless function of the path:
in any request sequence, the decision at a given position is exactly
`headerDecision` of that request's path, independent of all earlier and
later requests. -/
theorem handleRequests_stateless (prior later : List String) (p : String) :
    (handleRequests (prior ++ p :: later))[prior.length]? =
      some (headerDecision p) := by
  unfold handleRequests
  rw [List.map_append, List.getElem?_append_right (by simp)]
  simp

/-- C10: `end_headers` is overridden unconditionally, so the error path
(modelled from the spec) also emits the encoding (and matching type)
headers: a 404 for a `.br` or `.gz` target still carries them. -/
theorem finalizeErrorResponse_emitsHeaders (code : Nat) (p : String) :
    (endswith p ".br" = true →
      Action.sendHeader "Content-Encoding" "br" ∈ finalizeErrorResponse code p) ∧
    (endswith p ".gz" = true →
      Action.sendHeader "Content-Encoding" "gzip" ∈ finalizeErrorResponse code p) ∧
    finalizeErrorResponse 404 "/missing.js.br" =
      [Action.sendStatus 404, Action.sendHeader "Content-Encoding" "br",
       Action.sendHeader "Content-Type" "application/javascript",
       Action.superEndHeaders] := by
  refine ⟨?_, ?_, by decide⟩
  · intro h
    simp [finalizeErrorResponse, end_headers, h]
  · intro h
    have hbr : endswith p ".br" = false :=
      endswith_disjoint p (by decide) (by decide) h
    simp [finalizeErrorResponse, end_headers, h, hbr]

/-- C10 witness: 404 responses for concrete `.br` and `.gz` targets. -/
theorem finalizeErrorResponse_emitsHeaders_witness :
    Action.sendHeader "Content-Encoding" "br" ∈
      finalizeErrorResponse 404 "/missing.js.br" ∧
    Action.sendHeader "Content-Encoding" "gzip" ∈
      finalizeErrorResponse 404 "/missing.gz" :=
  ⟨(finalizeErrorResponse_emitsHeaders 404 "/missing.js.br").1 (by decide),
   (finalizeErrorResponse_emitsHeaders 404 "/missing.gz").2.1 (by decide)⟩

end Server
